import Mathlib

/-!
Verification of the fiscal-document acquisition and reconciliation pipeline
(eqidis-sat-sync). Shallow embedding of the relevant source functions:

- apps/fiscal/models.py: CfdiDocument.update_state, CfdiDocument.clean,
  CfdiCertificate.is_valid
- apps/fiscal/tasks.py: validar_estado_cfdis_pendientes (per-document step),
  verificar_solicitudes_pendientes (per-request step), procesar_paquete_xml
- apps/fiscal/cfdi_parser.py: CFDIParser.parse, CFDIParser.parse_and_save
- apps/integrations/sat/client.py: SATClient.__init__ / _load_signer,
  SATClient.verificar_solicitud (estado extraction)
- apps/fiscal/views.py: CertificateUploadMixin.process_certificate
- apps/core/encryption.py: ModelEncryption.decrypt

Timestamps are modelled as natural numbers; database tables as Lean lists in
insertion order.
-/

namespace EqidisSat

/-- One row of the CfdiStateCheck ledger (apps/fiscal/models.py, class
CfdiStateCheck): previous status, new status, cancellation status, whether it
represents a change, verification source, timestamp. -/
structure StateCheck where
  estado_anterior : Option String
  estado_sat : String
  estado_cancelacion : Option String
  es_cambio : Bool
  source : String
  checked_at : Nat
deriving Repr, DecidableEq

/-- One AuditLog row as produced by AuditLog.log (apps/core/models.py) for a
status change. -/
structure AuditEvent where
  entity_id : String
  action : String
  estado_before : String
  estado_after : String
  source : String
deriving Repr, DecidableEq

/-- The mutable fields of a CfdiDocument that the status-verification code
touches (apps/fiscal/models.py, class CfdiDocument). current_state_check is
the FK to the current CfdiStateCheck, modelled as an index into the ledger
list. -/
structure CfdiDoc where
  uuid : String
  company : Nat
  estado_sat : String
  estado_cancelacion : Option String
  fecha_cancelacion : Option Nat
  current_state_check : Option Nat
  last_state_check : Option Nat
deriving Repr, DecidableEq

/-- A document together with its CfdiStateCheck ledger (rows in creation
order) and the audit events emitted on its behalf. -/
structure DocState where
  doc : CfdiDoc
  ledger : List StateCheck
  audits : List AuditEvent
deriving Repr, DecidableEq

/-- CfdiDocument.update_state (apps/fiscal/models.py lines 699-760):
1. create a CfdiStateCheck row, 2. point current_state_check at it and
overwrite the cache fields, 3. write one AuditLog row when the status
changed. fecha_cancelacion is only assigned when the new status is Cancelado
and it is not already set. -/
def update_state (s : DocState) (nuevo_estado_sat : String)
    (nuevo_estado_cancelacion : Option String) (source : String) (now : Nat) :
    DocState :=
  let estado_anterior := s.doc.estado_sat
  let es_cambio : Bool := estado_anterior ≠ nuevo_estado_sat
  let check : StateCheck :=
    { estado_anterior := some estado_anterior
      estado_sat := nuevo_estado_sat
      estado_cancelacion := nuevo_estado_cancelacion
      es_cambio := es_cambio
      source := source
      checked_at := now }
  let ledger := s.ledger ++ [check]
  let doc :=
    { s.doc with
      current_state_check := some s.ledger.length
      estado_sat := nuevo_estado_sat
      estado_cancelacion := nuevo_estado_cancelacion
      last_state_check := some now
      fecha_cancelacion :=
        if nuevo_estado_sat = "Cancelado" ∧ s.doc.fecha_cancelacion = none then
          some now
        else s.doc.fecha_cancelacion }
  let audits :=
    if es_cambio then
      s.audits ++
        [{ entity_id := s.doc.uuid
           action := "status_change"
           estado_before := estado_anterior
           estado_after := nuevo_estado_sat
           source := source }]
    else s.audits
  { doc := doc, ledger := ledger, audits := audits }

/-- Per-document body of validar_estado_cfdis_pendientes
(apps/fiscal/tasks.py lines 428-463): it creates a CfdiStateCheck row
directly, then, only when the status changed and the new status is non-empty,
assigns estado_sat (and fecha_cancelacion on Cancelado) on the document and
saves those two fields. It does not touch current_state_check,
estado_cancelacion, or last_state_check, and it writes no AuditLog row. -/
def sweep_validate (s : DocState) (estado_nuevo : Option String)
    (estado_cancelacion : Option String) (now : Nat) : DocState :=
  let estado_anterior := s.doc.estado_sat
  let es_cambio : Bool := some estado_anterior ≠ estado_nuevo
  let check : StateCheck :=
    { estado_anterior := some estado_anterior
      estado_sat := estado_nuevo.getD "Desconocido"
      estado_cancelacion := estado_cancelacion
      es_cambio := es_cambio
      source := "uuid_check"
      checked_at := now }
  let ledger := s.ledger ++ [check]
  let doc :=
    match estado_nuevo with
    | some e =>
      if es_cambio then
        { s.doc with
          estado_sat := e
          fecha_cancelacion :=
            if e = "Cancelado" then some now else s.doc.fecha_cancelacion }
      else s.doc
    | none => s.doc
  { doc := doc, ledger := ledger, audits := s.audits }

/-- A sequence of update_state calls, each giving the new status, the new
cancellation status, the source, and the timestamp. -/
def run_updates (s : DocState) (calls : List (String × Option String × String × Nat)) :
    DocState :=
  calls.foldl (fun st c => update_state st c.1 c.2.1 c.2.2.1 c.2.2.2) s

/-- A concrete freshly parsed document in estado Vigente with an empty
ledger, as created by CFDIParser.to_model. -/
def freshDoc : DocState :=
  { doc :=
      { uuid := "AAAAAAAA-BBBB-CCCC-DDDD-EEEEEEEEEEEE"
        company := 1
        estado_sat := "Vigente"
        estado_cancelacion := none
        fecha_cancelacion := none
        current_state_check := none
        last_state_check := none }
    ledger := []
    audits := [] }

/-- Helper: update_state never overwrites an already-set fecha_cancelacion. -/
theorem update_state_fecha_preserved (s : DocState) (t : Nat) (e : String)
    (c : Option String) (src : String) (now : Nat)
    (h : s.doc.fecha_cancelacion = some t) :
    (update_state s e c src now).doc.fecha_cancelacion = some t := by
  simp [update_state, h]

/-- C1: the revalidation sweep (validar_estado_cfdis_pendientes) violates the
ledger/pointer invariant: evaluated on a fresh Vigente document that the SAT
now reports Cancelado, it appends a CfdiStateCheck row and writes the
estado_sat cache directly, but leaves current_state_check unchanged (none),
so the pointer does not equal the most recently appended ledger row —
contradicting the claim and the REGLA CRITICA documented on CfdiDocument. -/
theorem sweep_validate_bypasses_state_machine :
    (sweep_validate freshDoc (some "Cancelado") (some "Cancelable sin aceptación") 5).ledger.length
        = freshDoc.ledger.length + 1 ∧
    (sweep_validate freshDoc (some "Cancelado") (some "Cancelable sin aceptación") 5).doc.estado_sat
        = "Cancelado" ∧
    (sweep_validate freshDoc (some "Cancelado") (some "Cancelable sin aceptación") 5).doc.current_state_check
        = none ∧
    (sweep_validate freshDoc (some "Cancelado") (some "Cancelable sin aceptación") 5).doc.current_state_check
        ≠ some ((sweep_validate freshDoc (some "Cancelado") (some "Cancelable sin aceptación") 5).ledger.length - 1) := by
  decide

/-- C2: on a document currently Vigente, update_state with Cancelado appends
exactly one CfdiStateCheck with es_cambio = true, overwrites the cache
fields, points current_state_check at the new row and emits exactly one audit
event; a second update_state with the same Cancelado result appends a second
row with es_cambio = false and emits no audit event. -/
theorem update_state_revalidation_scenario (s : DocState)
    (h : s.doc.estado_sat = "Vigente")
    (c1 c2 : Option String) (src : String) (t1 t2 : Nat) :
    (update_state s "Cancelado" c1 src t1).ledger.length = s.ledger.length + 1 ∧
    ((update_state s "Cancelado" c1 src t1).ledger.getLast?).map (fun r => r.es_cambio)
        = some true ∧
    (update_state s "Cancelado" c1 src t1).doc.estado_sat = "Cancelado" ∧
    (update_state s "Cancelado" c1 src t1).doc.estado_cancelacion = c1 ∧
    (update_state s "Cancelado" c1 src t1).doc.current_state_check
        = some ((update_state s "Cancelado" c1 src t1).ledger.length - 1) ∧
    (update_state s "Cancelado" c1 src t1).audits.length = s.audits.length + 1 ∧
    (update_state (update_state s "Cancelado" c1 src t1) "Cancelado" c2 src t2).ledger.length
        = s.ledger.length + 2 ∧
    ((update_state (update_state s "Cancelado" c1 src t1) "Cancelado" c2 src t2).ledger.getLast?).map
        (fun r => r.es_cambio) = some false ∧
    (update_state (update_state s "Cancelado" c1 src t1) "Cancelado" c2 src t2).audits.length
        = (update_state s "Cancelado" c1 src t1).audits.length := by
  simp [update_state, h]

/-- Witness for C2 at the concrete fresh document. -/
theorem update_state_revalidation_scenario_witness :
    (update_state freshDoc "Cancelado" (some "No cancelable") "uuid_check" 3).audits.length
      = freshDoc.audits.length + 1 :=
  (update_state_revalidation_scenario freshDoc rfl (some "No cancelable")
      (some "No cancelable") "uuid_check" 3 7).2.2.2.2.2.1

/-- C10: fecha_cancelacion is write-once under update_state: once it holds
some value, every further sequence of update_state calls preserves it; and
from the unset state a single update_state call assigns it exactly when the
new status is Cancelado. -/
theorem fecha_cancelacion_write_once (s : DocState) :
    (∀ t calls, s.doc.fecha_cancelacion = some t →
        (run_updates s calls).doc.fecha_cancelacion = some t) ∧
    (∀ e c src now, s.doc.fecha_cancelacion = none →
        (update_state s e c src now).doc.fecha_cancelacion =
          (if e = "Cancelado" then some now else none)) := by
  constructor
  · intro t calls h
    induction calls generalizing s with
    | nil => simpa [run_updates] using h
    | cons cl cls ih =>
      simp only [run_updates, List.foldl_cons] at *
      exact ih _ (update_state_fecha_preserved s t cl.1 cl.2.1 cl.2.2.1 cl.2.2.2 h)
  · intro e c src now h
    simp [update_state, h]

/-- Witness for C10: a cancelled document keeps its cancellation timestamp
across further verifications. -/
theorem fecha_cancelacion_write_once_witness :
    (run_updates (update_state freshDoc "Cancelado" none "uuid_check" 5)
        [("Vigente", none, "manual", 9), ("Cancelado", none, "uuid_check", 12)]).doc.fecha_cancelacion
      = some 5 :=
  (fecha_cancelacion_write_once (update_state freshDoc "Cancelado" none "uuid_check" 5)).1
    5 [("Vigente", none, "manual", 9), ("Cancelado", none, "uuid_check", 12)] rfl

/-! Poll-status handling: SATClient.verificar_solicitud
(apps/integrations/sat/client.py lines 188-229) and the per-request branch of
verificar_solicitudes_pendientes (apps/fiscal/tasks.py lines 104-175). -/

/-- The EstadoSolicitud value as it arrives from the satcfdi response dict:
absent, an enum or plain integer (its value attribute is read first), or a
plain string. -/
inductive RawEstado where
  | absent : RawEstado
  | num : Nat → RawEstado
  | sym : String → RawEstado
deriving Repr, DecidableEq

/-- The estado field returned by verificar_solicitud: the raw value is
unwrapped (enum value preferred over name), stringified, and returned, with
falsy values (None, 0, empty string) mapped to None. This mirrors the lines
estado = response.get, the hasattr unwrapping, and
str(estado) if estado else None. -/
def estadoOf : RawEstado → Option String
  | .absent => none
  | .num n => if n = 0 then none else some (Nat.repr n)
  | .sym s => if s = "" then none else some s

/-- The action verificar_solicitudes_pendientes takes on a pending request
after reading result.get estado. -/
inductive PollAction where
  | markReady : PollAction
  | markFailed : PollAction
  | noAction : PollAction
deriving Repr, DecidableEq

/-- Branching of verificar_solicitudes_pendientes on the estado string
(apps/fiscal/tasks.py lines 143-170). The integer members of the Python
membership lists can never match a string and are omitted. -/
def decide_estado (estado : Option String) : PollAction :=
  match estado with
  | none => .noAction
  | some e =>
    if e = "Terminada" ∨ e = "Terminado" ∨ e = "3" ∨ e = "EstadoSolicitud.TERMINADA" then
      .markReady
    else if e = "Error" ∨ e = "Rechazada" ∨ e = "Rechazado" ∨ e = "4" ∨ e = "5" then
      .markFailed
    else if e = "Vencida" ∨ e = "6" then
      .markFailed
    else .noAction

/-- C3 counterexample: verificar_solicitud does not normalize the authority
state into a closed six-value enumeration — the numeric and the symbolic
encoding of the same authority state (request finished) come back as two
different raw strings, so downstream code still sees raw authority
encodings. -/
theorem verificar_solicitud_not_normalized :
    estadoOf (.num 3) = some "3" ∧
    estadoOf (.sym "Terminada") = some "Terminada" ∧
    estadoOf (.num 3) ≠ estadoOf (.sym "Terminada") := by
  decide

/-- C3 amended: verificar_solicitud passes the authority encoding through as
a raw string (or None); tolerance of numeric, symbolic, and enum-repr
encodings lives downstream in verificar_solicitudes_pendientes, whose
membership-list branching maps every encoding of the same authority state to
the same request transition: finished to ready, error/rejected/expired to
failed, accepted/in-progress to no action. -/
theorem poll_encoding_tolerance_downstream :
    decide_estado (estadoOf (.num 3)) = .markReady ∧
    decide_estado (estadoOf (.sym "Terminada")) = .markReady ∧
    decide_estado (estadoOf (.sym "Terminado")) = .markReady ∧
    decide_estado (estadoOf (.sym "EstadoSolicitud.TERMINADA")) = .markReady ∧
    decide_estado (estadoOf (.num 4)) = .markFailed ∧
    decide_estado (estadoOf (.sym "Error")) = .markFailed ∧
    decide_estado (estadoOf (.num 5)) = .markFailed ∧
    decide_estado (estadoOf (.sym "Rechazada")) = .markFailed ∧
    decide_estado (estadoOf (.num 6)) = .markFailed ∧
    decide_estado (estadoOf (.sym "Vencida")) = .markFailed ∧
    decide_estado (estadoOf (.num 1)) = .noAction ∧
    decide_estado (estadoOf (.sym "Aceptada")) = .noAction ∧
    decide_estado (estadoOf (.num 2)) = .noAction ∧
    decide_estado (estadoOf (.sym "EnProceso")) = .noAction ∧
    decide_estado (estadoOf .absent) = .noAction := by
  decide

/-! Credential loading: SATClient.__init__ and SATClient._load_signer
(apps/integrations/sat/client.py lines 66-120), ModelEncryption.decrypt
(apps/core/encryption.py), CfdiCertificate.is_valid
(apps/fiscal/models.py lines 366-371). -/

/-- The CfdiCertificate fields the client construction reads. The stored
Fernet ciphertext is modelled by whether it is present and whether the
current process secret can decrypt it (mismatched DJANGO_SECRET_KEY means
InvalidToken, hence None). -/
structure Certificate where
  tipo : String
  status : String
  rfc : String
  encrypted_password : String
  decryptable : Bool
  password_plain : String
  valid_from : Nat
  valid_to : Nat
deriving Repr, DecidableEq

/-- ModelEncryption.decrypt applied to the stored password: None for an
empty ciphertext, None on InvalidToken (mismatched secret), the plaintext
otherwise. -/
def decrypt_password (c : Certificate) : Option String :=
  if c.encrypted_password = "" then none
  else if c.decryptable then some c.password_plain
  else none

/-- CfdiCertificate.is_valid: active status and now inside the validity
window. -/
def cert_is_valid (c : Certificate) (now : Nat) : Bool :=
  c.status = "active" ∧ c.valid_from ≤ now ∧ now ≤ c.valid_to

/-- Errors raised while constructing SATClient. -/
inductive ClientError where
  | valueError : String → ClientError
  | satAuthError : String → ClientError
deriving Repr, DecidableEq

/-- SATClient._load_signer: raises SATAuthError when no password is stored
or when it cannot be decrypted; otherwise builds the signer. It consults no
dates. -/
def load_signer (c : Certificate) : Except ClientError Unit :=
  if c.encrypted_password = "" then
    .error (.satAuthError "La contraseña del certificado no está guardada.")
  else
    match decrypt_password c with
    | none => .error (.satAuthError "No se pudo desencriptar la contraseña del certificado.")
    | some _ => .ok ()

/-- SATClient.__init__: rejects non-FIEL and non-active certificates with
ValueError, then loads the signer. No expiry-date check is performed. -/
def satclient_init (c : Certificate) : Except ClientError Unit :=
  if c.tipo ≠ "FIEL" then .error (.valueError "Se requiere certificado FIEL")
  else if c.status ≠ "active" then .error (.valueError "Certificado no activo")
  else load_signer c

/-- A date-expired FIEL credential whose status field is still active and
whose password decrypts fine. -/
def expiredActiveFiel : Certificate :=
  { tipo := "FIEL"
    status := "active"
    rfc := "TST010101AAA"
    encrypted_password := "gAAAAA-ciphertext"
    decryptable := true
    password_plain := "secret"
    valid_from := 0
    valid_to := 10 }

/-- C4 counterexample: with the clock at 100, expiredActiveFiel is expired
(is_valid is false since valid_to is 10), yet SATClient construction
succeeds — the client checks only the status field and the password, never
the certificate dates, so the claimed expiry failure does not occur. -/
theorem satclient_accepts_expired_certificate :
    cert_is_valid expiredActiveFiel 100 = false ∧
    satclient_init expiredActiveFiel = .ok () :=
  ⟨by decide, rfl⟩

/-- C4 amended: SATClient construction fails with SATAuthError exactly when
the stored passphrase is absent or cannot be decrypted (mismatched secret),
given a FIEL certificate with active status; when the passphrase decrypts,
construction succeeds regardless of the certificate dates. -/
theorem satclient_init_credential_errors (c : Certificate)
    (hT : c.tipo = "FIEL") (hS : c.status = "active") :
    (c.encrypted_password = "" →
        satclient_init c
          = .error (.satAuthError "La contraseña del certificado no está guardada.")) ∧
    (c.encrypted_password ≠ "" → decrypt_password c = none →
        satclient_init c
          = .error (.satAuthError "No se pudo desencriptar la contraseña del certificado.")) ∧
    (decrypt_password c ≠ none → satclient_init c = .ok ()) := by
  refine ⟨fun h0 => ?_, fun h0 hd => ?_, fun hd => ?_⟩
  · simp [satclient_init, load_signer, hT, hS, h0]
  · simp [satclient_init, load_signer, hT, hS, h0, hd]
  · have h0 : c.encrypted_password ≠ "" := by
      intro h
      exact hd (by simp [decrypt_password, h])
    rcases ho : decrypt_password c with _ | p
    · exact absurd ho hd
    · simp [satclient_init, load_signer, hT, hS, h0, ho]

/-- Witness for C4 amended: a FIEL certificate with an undecryptable stored
password is rejected with SATAuthError. -/
theorem satclient_init_credential_errors_witness :
    satclient_init
        { expiredActiveFiel with decryptable := false }
      = .error (.satAuthError "No se pudo desencriptar la contraseña del certificado.") :=
  (satclient_init_credential_errors { expiredActiveFiel with decryptable := false }
      rfl rfl).2.1 (by decide) (by decide)

/-! Business-rule validation: CfdiDocument.clean and CfdiDocument.save
(apps/fiscal/models.py lines 762-793). -/

/-- CfdiDocument.clean over the two fields it inspects: the metodo_pago
code and the clave of the forma_pago catalog row (both optional). A PUE
document with forma de pago 99 raises ValidationError; every other
combination, including PPD with 99 and documents missing either field,
passes. -/
def clean_doc (metodo_pago : Option String) (forma_pago_clave : Option String) :
    Except String Unit :=
  match metodo_pago, forma_pago_clave with
  | some mp, some fp =>
    if mp = "PUE" ∧ fp = "99" then
      .error "PUE (Pago en Una Exhibición) no puede usar forma de pago 99 - Por definir."
    else .ok ()
  | _, _ => .ok ()

/-- CfdiDocument.save: runs clean first, so a validation error rejects the
write; on success the document fields are stored unchanged (no silent
correction). -/
def save_doc (metodo_pago : Option String) (forma_pago_clave : Option String) :
    Except String (Option String × Option String) :=
  match clean_doc metodo_pago forma_pago_clave with
  | .error e => .error e
  | .ok _ => .ok (metodo_pago, forma_pago_clave)

/-- C5: saving a PUE document with forma de pago clave 99 always fails with
the ValidationError; PUE with any other clave saves unchanged, and PPD with
clave 99 saves unchanged. -/
theorem pue_forma_pago_99_rejected (fp : String) (h : fp ≠ "99") :
    (∃ e, save_doc (some "PUE") (some "99") = .error e) ∧
    save_doc (some "PUE") (some fp) = .ok (some "PUE", some fp) ∧
    save_doc (some "PPD") (some "99") = .ok (some "PPD", some "99") := by
  refine ⟨⟨_, rfl⟩, ?_, rfl⟩
  simp [save_doc, clean_doc, h]

/-- Witness for C5 at clave 03 (electronic transfer). -/
theorem pue_forma_pago_99_rejected_witness :
    save_doc (some "PUE") (some "03") = .ok (some "PUE", some "03") :=
  (pue_forma_pago_99_rejected "03" (by decide)).2.1

/-! Document parser: CFDIParser.parse and CFDIParser._extract_uuid
(apps/fiscal/cfdi_parser.py lines 104-223), modelled for one parse call on a
fresh parser (class attribute NS at its initial value). The XML tree is
abstracted to the nodes and attributes that parse reads; element lookup is
keyed by namespace URI as root.find is. -/

/-- The TimbreFiscalDigital element inside Complemento, with its optional
UUID attribute. -/
structure Tfd where
  uuid_attr : Option String
deriving Repr, DecidableEq

/-- The Complemento element: whether a TimbreFiscalDigital child (in the tfd
namespace) is present. -/
structure Complemento where
  tfd : Option Tfd
deriving Repr, DecidableEq

/-- A direct child of the Comprobante root relevant to parse, tagged with
the namespace URI it lives under. -/
inductive XmlChild where
  | emisor : String → XmlChild
  | receptor : String → XmlChild
  | complemento : Complemento → XmlChild
deriving Repr, DecidableEq

/-- The Comprobante root: its Version attribute and its children, each under
a namespace URI. -/
structure XmlRoot where
  version : Option String
  children : List (String × XmlChild)
deriving Repr, DecidableEq

def nsCfdi4 : String := "http://www.sat.gob.mx/cfd/4"
def nsCfdi3 : String := "http://www.sat.gob.mx/cfd/3"

/-- root.find for the Emisor element under the given namespace: the Rfc
attribute read with default the empty string. -/
def findEmisor (ns : String) (r : XmlRoot) : Option String :=
  (r.children.filterMap fun c =>
    match c with
    | (n, .emisor rfc) => if n = ns then some rfc else none
    | _ => none).head?

/-- root.find for the Receptor element under the given namespace. -/
def findReceptor (ns : String) (r : XmlRoot) : Option String :=
  (r.children.filterMap fun c =>
    match c with
    | (n, .receptor rfc) => if n = ns then some rfc else none
    | _ => none).head?

/-- root.find for the Complemento element under the given namespace. -/
def findComplemento (ns : String) (r : XmlRoot) : Option Complemento :=
  (r.children.filterMap fun c =>
    match c with
    | (n, .complemento cp) => if n = ns then some cp else none
    | _ => none).head?

/-- The str.upper call applied to the UUID attribute, written structurally
over the character list so it is kernel-evaluable. -/
def upperAscii (s : String) : String :=
  String.mk (s.data.map Char.toUpper)

/-- CFDIParser._extract_uuid: None when Complemento or its
TimbreFiscalDigital child is missing; otherwise the UUID attribute read with
default the empty string, upper-cased. -/
def extract_uuid (complemento : Option Complemento) : Option String :=
  match complemento with
  | none => none
  | some cp =>
    match cp.tfd with
    | none => none
    | some t => some (upperAscii (t.uuid_attr.getD ""))

/-- The fields of CFDIParsedData that the claims reason about. -/
structure ParsedData where
  uuid : String
  version : String
  rfc_emisor : String
  rfc_receptor : String
deriving Repr, DecidableEq

/-- Body of CFDIParser.parse after the namespace has been selected for the
detected version: locate Emisor, Receptor and Complemento under that
namespace, fail when Emisor or Receptor is missing, extract the UUID from
the stamping element and fail when it is absent or empty. -/
def parseWithNs (r : XmlRoot) (ns : String) (v : String) :
    Except String ParsedData :=
  match findEmisor ns r, findReceptor ns r with
  | some em, some rec =>
    match extract_uuid (findComplemento ns r) with
    | none => .error "CFDI sin UUID (TimbreFiscalDigital)"
    | some u =>
      if u = "" then .error "CFDI sin UUID (TimbreFiscalDigital)"
      else .ok { uuid := u, version := v, rfc_emisor := em, rfc_receptor := rec }
  | _, _ => .error "CFDI incompleto: falta Emisor o Receptor"

/-- CFDIParser.parse: detect the schema generation from the Version
attribute, switching the lookup namespace accordingly; any other version
(including a missing attribute) is unsupported. -/
def parse (r : XmlRoot) : Except String ParsedData :=
  match r.version with
  | some v =>
    if v = "4.0" then parseWithNs r nsCfdi4 v
    else if v = "3.3" then parseWithNs r nsCfdi3 v
    else .error "Versión de CFDI no soportada"
  | none => .error "Versión de CFDI no soportada"

/-- Helper: a successful parseWithNs never yields an empty identifier. -/
theorem parseWithNs_ok_uuid (r : XmlRoot) (ns v : String) (d : ParsedData)
    (h : parseWithNs r ns v = .ok d) : d.uuid ≠ "" := by
  unfold parseWithNs at h
  split at h
  · split at h
    · exact absurd h (by simp)
    · split at h
      · exact absurd h (by simp)
      · cases h
        assumption
  · exact absurd h (by simp)

/-- Helper: under a supported version, a missing or empty stamp UUID makes
parseWithNs fail with the missing-stamp error whenever Emisor and Receptor
are present. -/
theorem parseWithNs_missing_stamp (r : XmlRoot) (ns v : String)
    (hu : extract_uuid (findComplemento ns r) = none ∨
          extract_uuid (findComplemento ns r) = some "")
    (he : findEmisor ns r ≠ none) (hr : findReceptor ns r ≠ none) :
    parseWithNs r ns v = .error "CFDI sin UUID (TimbreFiscalDigital)" := by
  rcases hem : findEmisor ns r with _ | em
  · exact absurd hem he
  rcases hrec : findReceptor ns r with _ | rec
  · exact absurd hrec hr
  rcases hu with hu | hu <;> simp [parseWithNs, hem, hrec, hu]

/-- C9: parse rejects any version other than 3.3 and 4.0 (including a
missing Version attribute), fails with the missing-stamp error when the
stamping element carries no UUID, never returns a record with an empty
identifier, and switches the lookup namespace according to the detected
version. -/
theorem parse_version_and_stamp (r : XmlRoot) :
    (∀ v, r.version = some v → v ≠ "4.0" → v ≠ "3.3" →
        parse r = .error "Versión de CFDI no soportada") ∧
    (r.version = none → parse r = .error "Versión de CFDI no soportada") ∧
    (∀ v, r.version = some v → (v = "4.0" ∨ v = "3.3") →
        (extract_uuid (findComplemento (if v = "4.0" then nsCfdi4 else nsCfdi3) r) = none ∨
         extract_uuid (findComplemento (if v = "4.0" then nsCfdi4 else nsCfdi3) r) = some "") →
        findEmisor (if v = "4.0" then nsCfdi4 else nsCfdi3) r ≠ none →
        findReceptor (if v = "4.0" then nsCfdi4 else nsCfdi3) r ≠ none →
        parse r = .error "CFDI sin UUID (TimbreFiscalDigital)") ∧
    (∀ d, parse r = .ok d → d.uuid ≠ "") ∧
    (∀ v, r.version = some v → (v = "4.0" ∨ v = "3.3") →
        parse r = parseWithNs r (if v = "4.0" then nsCfdi4 else nsCfdi3) v) := by
  refine ⟨?_, ?_, ?_, ?_, ?_⟩
  · intro v hv h4 h3
    simp [parse, hv, h4, h3]
  · intro hv
    simp [parse, hv]
  · intro v hv hcase hu he hr
    rcases hcase with h | h <;> subst h <;>
      simp only [String.reduceEq, reduceIte] at hu he hr <;>
      simp [parse, hv, parseWithNs_missing_stamp r _ _ hu he hr]
  · intro d hd
    unfold parse at hd
    split at hd
    · split at hd
      · exact parseWithNs_ok_uuid _ _ _ _ hd
      · split at hd
        · exact parseWithNs_ok_uuid _ _ _ _ hd
        · exact absurd hd (by simp)
    · exact absurd hd (by simp)
  · intro v hv hcase
    rcases hcase with h | h <;> simp [parse, hv, h]

/-- A concrete 4.0 document whose Complemento lacks the TimbreFiscalDigital
stamp. -/
def root40NoStamp : XmlRoot :=
  { version := some "4.0"
    children := [(nsCfdi4, .emisor "AAA010101AAA"),
                 (nsCfdi4, .receptor "BBB010101BBB"),
                 (nsCfdi4, .complemento { tfd := none })] }

/-- A concrete stamped 4.0 document. -/
def root40Good : XmlRoot :=
  { version := some "4.0"
    children := [(nsCfdi4, .emisor "AAA010101AAA"),
                 (nsCfdi4, .receptor "BBB010101BBB"),
                 (nsCfdi4, .complemento
                   { tfd := some { uuid_attr := some "11111111-2222-3333-4444-555555555555" } })] }

/-- A concrete stamped 3.3 document whose elements live under the cfd/3
namespace. -/
def root33Good : XmlRoot :=
  { version := some "3.3"
    children := [(nsCfdi3, .emisor "AAA010101AAA"),
                 (nsCfdi3, .receptor "BBB010101BBB"),
                 (nsCfdi3, .complemento
                   { tfd := some { uuid_attr := some "99999999-8888-7777-6666-555555555555" } })] }

/-- Witness for C9: the stamp-less document is rejected with the
missing-stamp error. -/
theorem parse_version_and_stamp_witness :
    parse root40NoStamp = .error "CFDI sin UUID (TimbreFiscalDigital)" :=
  (parse_version_and_stamp root40NoStamp).2.2.1 "4.0" rfl (Or.inl rfl)
    (Or.inl (by decide)) (by decide) (by decide)

/-! Deduplicating persistence: CFDIParser.parse_and_save
(apps/fiscal/cfdi_parser.py lines 334-370) together with the
unique_cfdi_per_company constraint (apps/fiscal/models.py lines 692-694).
The CfdiDocument table is modelled as the list of its rows in insertion
order. -/

/-- The CfdiDocument columns relevant to deduplication. -/
structure DocRow where
  company : Nat
  uuid : String
  source : String
deriving Repr, DecidableEq

/-- The filter used both by the dedup lookup and by the
unique_cfdi_per_company constraint: same tenant and same identifier. -/
def docMatch (company : Nat) (uuid : String) (row : DocRow) : Bool :=
  row.company == company && row.uuid == uuid

/-- Number of CfdiDocument rows for one (tenant, identifier) pair. -/
def countDocs (db : List DocRow) (company : Nat) (uuid : String) : Nat :=
  db.countP (docMatch company uuid)

/-- The unique_cfdi_per_company constraint as a predicate on the table. -/
def uniquePerCompany (db : List DocRow) : Prop :=
  ∀ company uuid, countDocs db company uuid ≤ 1

/-- CFDIParser.parse_and_save: parse the payload, look up an existing row
with the same UUID for the same tenant, return it unchanged with
created = false when present, otherwise insert a fresh row (source SAT via
to_model) and return it with created = true. -/
def parse_and_save (r : XmlRoot) (empresa : Nat) (db : List DocRow) :
    Except String (List DocRow × DocRow × Bool) :=
  match parse r with
  | .error e => .error e
  | .ok d =>
    match db.find? (docMatch empresa d.uuid) with
    | some existing => .ok (db, existing, false)
    | none =>
      let row : DocRow := { company := empresa, uuid := d.uuid, source := "SAT" }
      .ok (db ++ [row], row, true)

/-- Helper: a (tenant, identifier) pair with zero rows is not found by the
dedup lookup. -/
theorem findDoc_eq_none_of_count_zero (db : List DocRow) (c : Nat) (u : String)
    (h : countDocs db c u = 0) : db.find? (docMatch c u) = none := by
  rw [List.find?_eq_none]
  intro x hx
  simpa using List.countP_eq_zero.mp h x hx

/-- Helper: when the dedup lookup finds nothing, the pair has zero rows. -/
theorem countDocs_eq_zero_of_find_none (db : List DocRow) (c : Nat) (u : String)
    (h : db.find? (docMatch c u) = none) : countDocs db c u = 0 :=
  List.countP_eq_zero.mpr (by simpa using List.find?_eq_none.mp h)

/-- Helper: countDocs distributes over table concatenation. -/
theorem countDocs_append (db1 db2 : List DocRow) (c : Nat) (u : String) :
    countDocs (db1 ++ db2) c u = countDocs db1 c u + countDocs db2 c u := by
  simp [countDocs, List.countP_append]

/-- Helper: the count contributed by one row. -/
theorem countDocs_singleton (row : DocRow) (c : Nat) (u : String) :
    countDocs [row] c u = if row.company = c ∧ row.uuid = u then 1 else 0 := by
  simp only [countDocs, docMatch, List.countP_cons, List.countP_nil]
  by_cases h1 : row.company = c <;> by_cases h2 : row.uuid = u <;> simp [h1, h2]

/-- Helper: behaviour of parse_and_save once the payload parses. -/
theorem parse_and_save_ok (r : XmlRoot) (d : ParsedData) (empresa : Nat)
    (db : List DocRow) (hp : parse r = .ok d) :
    parse_and_save r empresa db =
      match db.find? (docMatch empresa d.uuid) with
      | some existing => .ok (db, existing, false)
      | none =>
        .ok (db ++ [⟨empresa, d.uuid, "SAT"⟩], ⟨empresa, d.uuid, "SAT"⟩, true) := by
  unfold parse_and_save
  rw [hp]

/-- C6: parsing-and-persisting the same payload twice for the same tenant
yields exactly one row — the second call returns the first row with
created = false and leaves the table unchanged — while persisting it for a
different tenant appends an independent second row carrying the same
identifier; and parse_and_save preserves the per-(tenant, identifier)
uniqueness constraint on any table. -/
theorem parse_and_save_dedup (r : XmlRoot) (d : ParsedData) (e1 e2 : Nat)
    (db : List DocRow)
    (hp : parse r = .ok d)
    (h1 : countDocs db e1 d.uuid = 0)
    (h2 : countDocs db e2 d.uuid = 0)
    (hne : e1 ≠ e2) :
    (∃ db1 r1 db2 r2,
      parse_and_save r e1 db = .ok (db1, r1, true) ∧
      r1.company = e1 ∧ r1.uuid = d.uuid ∧
      countDocs db1 e1 d.uuid = 1 ∧
      parse_and_save r e1 db1 = .ok (db1, r1, false) ∧
      parse_and_save r e2 db1 = .ok (db2, r2, true) ∧
      r2.company = e2 ∧ r2.uuid = d.uuid ∧
      countDocs db2 e1 d.uuid = 1 ∧
      countDocs db2 e2 d.uuid = 1) ∧
    (∀ db0 c db' row b, uniquePerCompany db0 →
        parse_and_save r c db0 = .ok (db', row, b) → uniquePerCompany db') := by
  have hf1 := findDoc_eq_none_of_count_zero db e1 d.uuid h1
  have hf2 := findDoc_eq_none_of_count_zero db e2 d.uuid h2
  have hrow12 : docMatch e2 d.uuid ⟨e1, d.uuid, "SAT"⟩ = false := by
    simp [docMatch, hne]
  have hrow21 : docMatch e1 d.uuid ⟨e2, d.uuid, "SAT"⟩ = false := by
    simp [docMatch, Ne.symm hne]
  constructor
  · refine ⟨db ++ [⟨e1, d.uuid, "SAT"⟩], ⟨e1, d.uuid, "SAT"⟩,
      (db ++ [⟨e1, d.uuid, "SAT"⟩]) ++ [⟨e2, d.uuid, "SAT"⟩], ⟨e2, d.uuid, "SAT"⟩,
      ?_, rfl, rfl, ?_, ?_, ?_, rfl, rfl, ?_, ?_⟩
    · rw [parse_and_save_ok r d e1 db hp, hf1]
    · rw [countDocs_append, h1, countDocs_singleton]
      simp
    · rw [parse_and_save_ok r d e1 _ hp, List.find?_append, hf1]
      simp [List.find?, docMatch]
    · rw [parse_and_save_ok r d e2 _ hp, List.find?_append, hf2]
      simp [List.find?, hrow12]
    · rw [countDocs_append, countDocs_append, h1,
        countDocs_singleton, countDocs_singleton]
      simp [Ne.symm hne]
    · rw [countDocs_append, countDocs_append, h2,
        countDocs_singleton, countDocs_singleton]
      simp [hne]
  · intro db0 c db' row b hu hps
    rw [parse_and_save_ok r d c db0 hp] at hps
    rcases hfind : db0.find? (docMatch c d.uuid) with _ | ex
    · rw [hfind] at hps
      simp only [Except.ok.injEq, Prod.mk.injEq] at hps
      obtain ⟨hdb, -, -⟩ := hps
      subst hdb
      intro c' u'
      have hz := countDocs_eq_zero_of_find_none db0 c d.uuid hfind
      rw [countDocs_append, countDocs_singleton]
      by_cases hc : (⟨c, d.uuid, "SAT"⟩ : DocRow).company = c' ∧
          (⟨c, d.uuid, "SAT"⟩ : DocRow).uuid = u'
      · obtain ⟨h1c, h2c⟩ := hc
        simp only at h1c h2c
        subst h1c
        subst h2c
        simp [hz]
      · simp only [hc, if_neg hc, Nat.add_zero]
        exact hu c' u'
    · rw [hfind] at hps
      simp only [Except.ok.injEq, Prod.mk.injEq] at hps
      obtain ⟨hdb, -, -⟩ := hps
      subst hdb
      exact hu

/-- Witness for C6 on a concrete empty table and the stamped 4.0 document
for tenants 1 and 2. -/
theorem parse_and_save_dedup_witness :
    ∃ db1 r1 db2 r2,
      parse_and_save root40Good 1 [] = .ok (db1, r1, true) ∧
      r1.company = 1 ∧
      r1.uuid = "11111111-2222-3333-4444-555555555555" ∧
      countDocs db1 1 "11111111-2222-3333-4444-555555555555" = 1 ∧
      parse_and_save root40Good 1 db1 = .ok (db1, r1, false) ∧
      parse_and_save root40Good 2 db1 = .ok (db2, r2, true) ∧
      r2.company = 2 ∧
      r2.uuid = "11111111-2222-3333-4444-555555555555" ∧
      countDocs db2 1 "11111111-2222-3333-4444-555555555555" = 1 ∧
      countDocs db2 2 "11111111-2222-3333-4444-555555555555" = 1 :=
  (parse_and_save_dedup root40Good
      { uuid := "11111111-2222-3333-4444-555555555555", version := "4.0",
        rfc_emisor := "AAA010101AAA", rfc_receptor := "BBB010101BBB" }
      1 2 [] rfl rfl rfl (by decide)).1

/-! Package processing: procesar_paquete_xml (apps/fiscal/tasks.py lines
244-354). The per-XML loop catches CFDIParseError (and any other
per-document exception), counts it, and continues; at the end the package is
marked completed and, when no package of the request remains incomplete, the
request is marked downloaded. -/

/-- One iteration of the per-XML loop: success bumps processed (and created
when a new row was inserted) and threads the updated table; a parse error
bumps errors and leaves the table untouched. The accumulator is
(processed, created, errors, table). -/
def process_step (empresa : Nat) (acc : Nat × Nat × Nat × List DocRow)
    (x : XmlRoot) : Nat × Nat × Nat × List DocRow :=
  match parse_and_save x empresa acc.2.2.2 with
  | .error _ => (acc.1, acc.2.1, acc.2.2.1 + 1, acc.2.2.2)
  | .ok (db2, _, wc) => (acc.1 + 1, acc.2.1 + (if wc then 1 else 0), acc.2.2.1, db2)

/-- The whole per-XML loop starting from zero counters. -/
def process_xmls (xmls : List XmlRoot) (empresa : Nat) (db : List DocRow) :
    Nat × Nat × Nat × List DocRow :=
  xmls.foldl (process_step empresa) (0, 0, 0, db)

/-- The batch summary returned by procesar_paquete_xml. -/
structure BatchSummary where
  processed : Nat
  created : Nat
  duplicates : Nat
  errors : Nat
  total : Nat
deriving Repr, DecidableEq

/-- The package columns written by procesar_paquete_xml. -/
structure PackageRec where
  status : String
  cfdi_count : Nat
  cfdi_processed : Nat
deriving Repr, DecidableEq

/-- procesar_paquete_xml over the extracted XML entries: run the loop, mark
this package completed with its counters, and mark the request downloaded
when no sibling package remains incomplete (the update is none when the
request status is left alone). -/
def procesar_paquete_xml (xmls : List XmlRoot) (empresa : Nat)
    (db : List DocRow) (sibling_statuses : List String) :
    BatchSummary × PackageRec × Option String × List DocRow :=
  let res := process_xmls xmls empresa db
  let pkg : PackageRec :=
    { status := "completed", cfdi_count := xmls.length, cfdi_processed := res.1 }
  let all_completed := sibling_statuses.all (fun s => s == "completed")
  let request_update : Option String :=
    if all_completed then some "downloaded" else none
  ({ processed := res.1, created := res.2.1, duplicates := res.1 - res.2.1,
     errors := res.2.2.1, total := xmls.length }, pkg, request_update, res.2.2.2)

/-- Helper: every XML entry ends up counted either as processed or as an
error, whatever the accumulator. -/
theorem process_fold_total (empresa : Nat) (xmls : List XmlRoot)
    (acc : Nat × Nat × Nat × List DocRow) :
    (xmls.foldl (process_step empresa) acc).1
        + (xmls.foldl (process_step empresa) acc).2.2.1
      = acc.1 + acc.2.2.1 + xmls.length := by
  induction xmls generalizing acc with
  | nil => simp
  | cons x xs ih =>
    rw [List.foldl_cons, ih]
    rcases h : parse_and_save x empresa acc.2.2.2 with e | ⟨db2, row, wc⟩ <;>
      simp [process_step, h] <;> omega

/-- C7: a parse failure on one document never aborts the batch — processed
and errors always add up to the number of extracted documents and the
package always reaches completed, with the request marked downloaded when no
sibling package is incomplete; on the concrete two-document archive (one
stamped document, one with a missing stamp) the summary is 1 processed, 1
created, 0 duplicates, 1 error out of 2, the good document is persisted, and
the single-package request becomes downloaded. -/
theorem procesar_paquete_skips_bad_documents :
    (∀ xmls empresa db sib,
        (procesar_paquete_xml xmls empresa db sib).1.processed
            + (procesar_paquete_xml xmls empresa db sib).1.errors = xmls.length ∧
        (procesar_paquete_xml xmls empresa db sib).2.1.status = "completed" ∧
        (sib.all (fun s => s == "completed") = true →
          (procesar_paquete_xml xmls empresa db sib).2.2.1 = some "downloaded")) ∧
    ((procesar_paquete_xml [root40Good, root40NoStamp] 1 [] []).1
        = { processed := 1, created := 1, duplicates := 0, errors := 1, total := 2 } ∧
     (procesar_paquete_xml [root40Good, root40NoStamp] 1 [] []).2.1
        = { status := "completed", cfdi_count := 2, cfdi_processed := 1 } ∧
     (procesar_paquete_xml [root40Good, root40NoStamp] 1 [] []).2.2.1
        = some "downloaded" ∧
     countDocs (procesar_paquete_xml [root40Good, root40NoStamp] 1 [] []).2.2.2
        1 "11111111-2222-3333-4444-555555555555" = 1) := by
  constructor
  · intro xmls empresa db sib
    refine ⟨?_, rfl, ?_⟩
    · have := process_fold_total empresa xmls (0, 0, 0, db)
      simpa [procesar_paquete_xml, process_xmls] using this
    · intro hall
      simp [procesar_paquete_xml, hall]
  · exact ⟨by decide, by decide, by decide, by decide⟩

/-- Witness for C7 at a concrete incomplete sibling list, exercising the
hypothesis of the general part. -/
theorem procesar_paquete_skips_bad_documents_witness :
    (procesar_paquete_xml [root40NoStamp] 7 [] ["completed", "completed"]).2.2.1
      = some "downloaded" :=
  ((procesar_paquete_skips_bad_documents).1 [root40NoStamp] 7 []
      ["completed", "completed"]).2.2 (by decide)

/-! Credential supersession: CertificateUploadMixin.process_certificate
(apps/fiscal/views.py lines 73-123). The CfdiCertificate table is modelled
by the columns the status logic reads. -/

/-- The CfdiCertificate columns relevant to the single-active invariant. -/
structure CertRow where
  company : Nat
  tipo : String
  status : String
deriving Repr, DecidableEq

/-- The filter of the demoting update: active credential of this tenant and
kind. -/
def certActive (company : Nat) (tipo : String) (c : CertRow) : Bool :=
  c.company == company && c.tipo == tipo && c.status == "active"

/-- Number of active credentials for one (tenant, kind) pair. -/
def countActive (db : List CertRow) (company : Nat) (tipo : String) : Nat :=
  db.countP (certActive company tipo)

/-- The update(status = expired) applied to one row: demote it when it is an
active credential of the uploaded (tenant, kind), leave it alone
otherwise. -/
def demote (company : Nat) (tipo : String) (c : CertRow) : CertRow :=
  if certActive company tipo c then { c with status := "expired" } else c

/-- The certificate-table effect of a successful upload: demote every
previously active credential of the (tenant, kind) and append the new active
one. -/
def upload_effect (db : List CertRow) (company : Nat) (tipo : String) :
    List CertRow :=
  db.map (demote company tipo) ++ [{ company := company, tipo := tipo, status := "active" }]

/-- CertificateUploadMixin.process_certificate: when the company already has
an RFC and it differs from the certificate RFC the upload is rejected
(returns False) and the table is untouched; otherwise the previous active
credentials of the (tenant, kind) are demoted and the new one is created
active. -/
def process_certificate (db : List CertRow) (empresa_rfc : Option String)
    (cert_rfc : String) (company : Nat) (tipo : String) :
    Option (List CertRow) :=
  match empresa_rfc with
  | some r => if r ≠ cert_rfc then none else some (upload_effect db company tipo)
  | none => some (upload_effect db company tipo)

/-- Helper: a demoted row is never an active credential of the uploaded
pair. -/
theorem demote_not_active (company : Nat) (tipo : String) (c : CertRow) :
    certActive company tipo (demote company tipo c) = false := by
  unfold demote
  split
  · simp [certActive]
  · rename_i h
    simpa using h

/-- Helper: demotion does not change membership in any other
(tenant, kind) active set. -/
theorem demote_other (company : Nat) (tipo : String) (c0 : Nat) (t0 : String)
    (h : ¬(c0 = company ∧ t0 = tipo)) (c : CertRow) :
    certActive c0 t0 (demote company tipo c) = certActive c0 t0 c := by
  unfold demote
  split
  · rename_i hm
    simp only [certActive, Bool.and_eq_true, beq_iff_eq] at hm
    obtain ⟨⟨hc, ht⟩, hs⟩ := hm
    have hl : certActive c0 t0 { c with status := "expired" } = false := by
      simp [certActive]
    have hr : certActive c0 t0 c = false := by
      apply Bool.eq_false_iff.mpr
      intro htrue
      simp only [certActive, Bool.and_eq_true, beq_iff_eq] at htrue
      obtain ⟨⟨h1, h2⟩, h3⟩ := htrue
      exact h ⟨h1.symm.trans hc, h2.symm.trans ht⟩
    rw [hl, hr]
  · rfl

/-- C8: a completed upload leaves exactly one active credential for the
uploaded (tenant, kind); prior credentials are superseded in place, not
deleted (the table grows by exactly one row); every other (tenant, kind)
pair keeps its active count; hence the at-most-one-active invariant holds
after the upload whenever it held before. -/
theorem certificate_upload_single_active (db : List CertRow)
    (empresa_rfc : Option String) (cert_rfc : String) (company : Nat)
    (tipo : String) (db2 : List CertRow)
    (h : process_certificate db empresa_rfc cert_rfc company tipo = some db2) :
    countActive db2 company tipo = 1 ∧
    db2.length = db.length + 1 ∧
    (∀ c0 t0, ¬(c0 = company ∧ t0 = tipo) →
        countActive db2 c0 t0 = countActive db c0 t0) ∧
    ((∀ c0 t0, countActive db c0 t0 ≤ 1) →
        (∀ c0 t0, countActive db2 c0 t0 ≤ 1)) := by
  have hdb2 : db2 = upload_effect db company tipo := by
    unfold process_certificate at h
    rcases empresa_rfc with _ | r
    · simpa using h.symm
    · by_cases hr : r ≠ cert_rfc
      · simp [hr] at h
      · simp [hr] at h
        exact h.symm
  subst hdb2
  have hmain : countActive (upload_effect db company tipo) company tipo = 1 := by
    unfold upload_effect countActive
    rw [List.countP_append, List.countP_map]
    have hz : List.countP (certActive company tipo ∘ demote company tipo) db = 0 :=
      List.countP_eq_zero.mpr fun c _ => by
        simpa using demote_not_active company tipo c
    rw [hz]
    simp [certActive]
  have hother : ∀ c0 t0, ¬(c0 = company ∧ t0 = tipo) →
      countActive (upload_effect db company tipo) c0 t0 = countActive db c0 t0 := by
    intro c0 t0 hne
    unfold upload_effect countActive
    rw [List.countP_append, List.countP_map]
    have hcong : List.countP (certActive c0 t0 ∘ demote company tipo) db
        = List.countP (certActive c0 t0) db :=
      List.countP_congr fun c _ => by
        simpa using demote_other company tipo c0 t0 hne c
    rw [hcong]
    have hnew : certActive c0 t0 { company := company, tipo := tipo, status := "active" }
        = false := by
      apply Bool.eq_false_iff.mpr
      intro htrue
      simp only [certActive, Bool.and_eq_true, beq_iff_eq] at htrue
      obtain ⟨⟨h1, h2⟩, -⟩ := htrue
      exact hne ⟨h1.symm, h2.symm⟩
    simp [hnew]
  refine ⟨hmain, by simp [upload_effect], hother, ?_⟩
  intro hinv c0 t0
  by_cases hc : c0 = company ∧ t0 = tipo
  · obtain ⟨rfl, rfl⟩ := hc
    omega
  · rw [hother c0 t0 hc]
    exact hinv c0 t0

/-- Witness for C8 on a concrete table holding an older active FIEL of the
same tenant. -/
theorem certificate_upload_single_active_witness :
    countActive
        (upload_effect [⟨1, "FIEL", "active"⟩, ⟨2, "FIEL", "active"⟩] 1 "FIEL")
        1 "FIEL" = 1 :=
  (certificate_upload_single_active
      [⟨1, "FIEL", "active"⟩, ⟨2, "FIEL", "active"⟩] (some "TST010101AAA")
      "TST010101AAA" 1 "FIEL"
      (upload_effect [⟨1, "FIEL", "active"⟩, ⟨2, "FIEL", "active"⟩] 1 "FIEL")
      (by decide)).1

end EqidisSat
